import Mathlib

/-!
Shallow embedding of the Cookie Marshal agent's core decision logic.

Sources embedded here:
* `src/hybrid-coordinator.js` — strategy selection, parallel-evaluation
  arbitration, historical difficulty, top-level error handling;
* the anti-evasion content script — reject-button scoring and clicking,
  preference-page polling, category configuration, processed-set guard;
* the AI engine — Q-learning reward and value update.

Numbers are modelled as rationals (`ℚ`), JS strings as `String` with
explicit helpers mirroring `toLowerCase`, `trim` and `includes`.
Effectful sub-calls that may throw are abstracted as `Except` values.
-/

namespace CookieMarshal

/-- JS `String.prototype.toLowerCase()` (ASCII case mapping). -/
def jsToLower (s : String) : String :=
  ⟨s.data.map Char.toLower⟩

/-- JS `String.prototype.trim()`: strip whitespace from both ends. -/
def jsTrim (s : String) : String :=
  ⟨((s.data.dropWhile Char.isWhitespace).reverse.dropWhile Char.isWhitespace).reverse⟩

/-- Helper for `jsIncludes`: does `needle` occur as a contiguous block
of `haystack`? -/
def charsInclude (needle : List Char) : List Char → Bool
  | [] => needle.isPrefixOf []
  | c :: rest => needle.isPrefixOf (c :: rest) || charsInclude needle rest

/-- JS `haystack.includes(needle)`: substring containment. -/
def jsIncludes (haystack needle : String) : Bool :=
  charsInclude needle.data haystack.data

/-- JS `x || d` applied to a field that is either absent (`none`) or a
number; `0` is falsy in JS, so a stored `0` also yields the default. -/
def jsOrQ (x : Option ℚ) (d : ℚ) : ℚ :=
  match x with
  | none => d
  | some q => if q = 0 then d else q

/-! ## Hybrid coordinator (`src/hybrid-coordinator.js`) -/

/-- Outcome object of one processing path (`success` flag plus the
optional `confidence` field of the returned result). -/
structure PathResult where
  success : Bool
  confidence : Option ℚ
  deriving DecidableEq, Repr

/-- Which path `chooseBestResult` picked. -/
inductive ChosenSource
  | ai
  | ruleBased
  deriving DecidableEq, Repr

/-- Embeds `HybridCoordinator.chooseBestResult` (hybrid-coordinator.js:484-498):
confidences are read with `|| 0.5`, and the AI result wins only when its
(defaulted) confidence exceeds the rule result's by more than 0.2. -/
def chooseBestResult (ruleResult aiResult : PathResult) : ChosenSource :=
  let ruleConfidence := jsOrQ ruleResult.confidence (1/2)
  let aiConfidence := jsOrQ aiResult.confidence (1/2)
  let confidenceDiff := aiConfidence - ruleConfidence
  let significantDifference : ℚ := 2/10
  if confidenceDiff > significantDifference then .ai else .ruleBased

/-- Observable outcome of `executeParallelEvaluation`
(hybrid-coordinator.js:435-482): which branch produced the returned
result. `fallback` is the catch branch (timeout or error). -/
inductive ParallelOutcome
  | aiWon
  | ruleWon
  | fallback
  deriving DecidableEq, Repr

/-- Embeds `HybridCoordinator.executeParallelEvaluation`, abstracted over the
raced pair: when the race resolves with both results, the winner is
decided by `chooseBestResult`; when it rejects, the catch branch runs a
direct rule-based attempt. -/
def executeParallelEvaluation (raced : Except String (PathResult × PathResult)) :
    ParallelOutcome :=
  match raced with
  | .error _ => .fallback
  | .ok (ruleResult, aiResult) =>
    match chooseBestResult ruleResult aiResult with
    | .ai => .aiWon
    | .ruleBased => .ruleWon

/-- Embeds `HybridCoordinator.getRecommendation` output values. -/
inductive Recommendation
  | ruleBased
  | aiPrimary
  | hybrid
  deriving DecidableEq, Repr

/-- Embeds `HybridCoordinator.getRecommendation` (hybrid-coordinator.js:275-283)
with the constructor's thresholds `lowComplexity = 0.3`,
`highComplexity = 0.7`. -/
def getRecommendation (complexityScore : ℚ) : Recommendation :=
  if complexityScore < 3/10 then .ruleBased
  else if complexityScore > 7/10 then .aiPrimary
  else .hybrid

/-- Strategy method strings of `decideStrategy`. -/
inductive StrategyMethod
  | ruleBasedOnly
  | ruleBasedPrimary
  | aiPrimary
  | parallelEvaluation
  deriving DecidableEq, Repr

/-- The `fallback` field of a strategy object. -/
inductive FallbackKind
  | ai
  | ruleBased
  deriving DecidableEq, Repr

/-- Strategy object returned by `decideStrategy`. -/
structure StrategyDecision where
  method : StrategyMethod
  confidence : ℚ
  fallback : Option FallbackKind
  timeout : Option ℚ
  deriving DecidableEq, Repr

/-- Relevant part of `aiEngine.getStatus()`. -/
structure AIStatus where
  initialized : Bool
  deriving DecidableEq, Repr

/-- Embeds `HybridCoordinator.decideStrategy` (hybrid-coordinator.js:285-333).
`aiEngine = none` models a missing engine (or one without a `getStatus`
function); the `switch` on `complexity.recommendation` defaults to the
hybrid branch. -/
def decideStrategy (aiEngine : Option AIStatus) (recommendation : Recommendation) :
    StrategyDecision :=
  match aiEngine with
  | none => ⟨.ruleBasedOnly, 8/10, none, none⟩
  | some aiStatus =>
    if !aiStatus.initialized then ⟨.ruleBasedOnly, 8/10, none, none⟩
    else
      match recommendation with
      | .ruleBased => ⟨.ruleBasedPrimary, 9/10, some .ai, none⟩
      | .aiPrimary => ⟨.aiPrimary, 8/10, some .ruleBased, none⟩
      | .hybrid => ⟨.parallelEvaluation, 85/100, none, some 2000⟩

/-- Embeds `HybridCoordinator.processBanner` (hybrid-coordinator.js:30-55).
The try block chains site-complexity analysis, strategy decision,
strategy execution and outcome recording; the catch branch returns the
result of an emergency `ruleBasedAgent.processBanner(banner)` call.
Sub-calls are abstracted as `Except` values (an `error` models a thrown
exception). -/
def hybridProcessBanner
    (analyze : Except String ℚ)
    (exec : StrategyDecision → Except String PathResult)
    (record : Except String Unit)
    (aiEngine : Option AIStatus)
    (ruleBasedFallback : Except String PathResult) :
    Except String PathResult :=
  let body : Except String PathResult := do
    let complexityScore ← analyze
    let strategy := decideStrategy aiEngine (getRecommendation complexityScore)
    let result ← exec strategy
    let _ ← record
    pure result
  match body with
  | .ok result => .ok result
  | .error _ => ruleBasedFallback

/-- One record of the per-domain attempt history stored under
`difficulty_<domain>`. -/
structure AttemptRecord where
  timestamp : ℤ
  success : Bool
  attempts : ℚ
  deriving DecidableEq, Repr

/-- Embeds `HybridCoordinator.getHistoricalDifficulty`
(hybrid-coordinator.js:207-231). `stored = none` models an absent key or
a storage/parse error (both return the neutral 0.5). `now` is
`Date.now()`. -/
def getHistoricalDifficulty (now : ℤ) (stored : Option (List AttemptRecord)) : ℚ :=
  match stored with
  | none => 1/2
  | some attempts =>
    let recentAttempts := attempts.filter
      (fun a => now - a.timestamp < 7 * 24 * 60 * 60 * 1000)
    if recentAttempts.length = 0 then 1/2
    else
      let successRate : ℚ :=
        ((recentAttempts.filter (fun a => a.success)).length : ℚ) /
          (recentAttempts.length : ℚ)
      let avgAttempts : ℚ :=
        (recentAttempts.foldl (fun sum a => sum + a.attempts) 0) /
          (recentAttempts.length : ℚ)
      1 - (successRate * (7/10)) - min (avgAttempts / 10) (3/10)

/-! ## Anti-evasion content script: reject-button scoring and clicking -/

/-- The attributes of a clickable action element that
`calculateRejectScore` and `findAndClickRejectButton` read. The text
fields carry the raw DOM values; `inCookieContext` models the
`button.closest('[class*="cookie"], [class*="consent"],
[class*="privacy"]')` check. -/
structure ButtonEl where
  textContent : String
  ariaLabel : String
  title : String
  className : String
  inCookieContext : Bool
  deriving DecidableEq, Repr

/-- Embeds `AntiEvasionCookieKiller.calculateRejectScore` (part_001:2767-2860):
tiered reject-phrase scoring minus accept/ambiguous penalties, plus
attribute bonuses, finally clamped to [0,1]. -/
def calculateRejectScore (text : String) (button : ButtonEl) : ℚ :=
  let normalizedText := jsTrim (jsToLower text)
  let score : ℚ := 0
  let veryHighPatterns := ["reject all", "decline all", "deny all", "refuse all",
    "reject all cookies", "decline all cookies", "deny all cookies"]
  let score := if veryHighPatterns.any (fun pattern => jsIncludes normalizedText pattern)
    then score + 9/10 else score
  let highPatterns := ["reject cookies", "decline cookies", "deny cookies",
    "refuse cookies", "no cookies", "block cookies"]
  let score := if highPatterns.any (fun pattern => jsIncludes normalizedText pattern)
    then score + 8/10 else score
  let mediumHighPatterns := ["reject", "decline", "deny", "refuse"]
  let score := if mediumHighPatterns.any (fun pattern => normalizedText = pattern)
    then score + 6/10 else score
  let mediumPatterns := ["no", "close", "dismiss", "cancel"]
  let score := if mediumPatterns.any (fun pattern => normalizedText = pattern)
      && button.inCookieContext
    then score + 4/10 else score
  let acceptPatterns := ["accept", "allow", "agree", "enable", "ok", "yes",
    "accept all", "allow all", "agree to all", "enable all",
    "accept cookies", "allow cookies", "i agree", "got it"]
  let score := if acceptPatterns.any (fun pattern => jsIncludes normalizedText pattern)
    then score - 8/10 else score
  let ambiguousPatterns := ["continue", "proceed", "next", "confirm", "submit",
    "save", "apply", "update", "customize"]
  let score := if ambiguousPatterns.any (fun pattern => jsIncludes normalizedText pattern)
    then score - 3/10 else score
  let contextBonusPatterns := ["cookie preferences", "privacy settings", "manage cookies",
    "cookie settings", "opt out", "do not track"]
  let score := if contextBonusPatterns.any (fun pattern => jsIncludes normalizedText pattern)
    then score + 2/10 else score
  let ariaLabel := jsToLower button.ariaLabel
  let title := jsToLower button.title
  let className := jsToLower button.className
  let score := if jsIncludes ariaLabel "reject" || jsIncludes title "reject"
      || jsIncludes className "reject" || jsIncludes className "decline"
    then score + 2/10 else score
  let score := if jsIncludes ariaLabel "accept" || jsIncludes title "accept"
      || jsIncludes className "accept" || jsIncludes className "allow"
    then score - 2/10 else score
  max 0 (min 1 score)

/-- The `fullText` a button is scored on inside `findAndClickRejectButton`
(part_001:2885-2888): lowercased trimmed text content, lowercased
aria-label and title, joined by spaces. -/
def buttonFullText (button : ButtonEl) : String :=
  jsTrim (jsToLower button.textContent) ++ " " ++ jsToLower button.ariaLabel
    ++ " " ++ jsToLower button.title

/-- Embeds `AntiEvasionCookieKiller.findAndClickRejectButton` loop
(part_001:2882-2919), abstracted over whether a dispatched click succeeds
(`clickOk`). Returns the list of buttons a click was issued on (in
order) and, when a click succeeded, that button with its score. A click
is issued only inside the `rejectScore > 0.7` branch; on click failure
the loop continues with the remaining buttons. -/
def findAndClickRejectButton (clickOk : ButtonEl → Bool) :
    List ButtonEl → List ButtonEl × Option (ButtonEl × ℚ)
  | [] => ([], none)
  | button :: rest =>
    let rejectScore := calculateRejectScore (buttonFullText button) button
    if rejectScore > 7/10 then
      if clickOk button then ([button], some (button, rejectScore))
      else
        let next := findAndClickRejectButton clickOk rest
        (button :: next.1, next.2)
    else findAndClickRejectButton clickOk rest

/-! ## Anti-evasion content script: preference-page polling -/

/-- The polling loop of `waitForPreferencesPage` (part_001:3133-3168).
`env a` tells whether a preference-UI indicator is present in the
document when the `a`-th check runs. `attempts` is the value of the
counter before the next check; `fuel` is the number of further polls
allowed after the next one. The loop resolves with the current `found`
flag as soon as `found` holds or the attempt budget is exhausted. -/
def checkForPreferences (env : Nat → Bool) : Nat → Nat → Bool × Nat
  | attempts, 0 => (env (attempts + 1), attempts + 1)
  | attempts, fuel + 1 =>
    if env (attempts + 1) then (env (attempts + 1), attempts + 1)
    else checkForPreferences env (attempts + 1) fuel

/-- Embeds `AntiEvasionCookieKiller.waitForPreferencesPage`: up to
`maxAttempts = 20` checks, 500ms apart. Returns the resolved boolean and
the number of polls performed. -/
def waitForPreferencesPage (env : Nat → Bool) : Bool × Nat :=
  checkForPreferences env 0 19

/-! ## Anti-evasion content script: category configuration -/

/-- Essential-category keyword list of `isNonEssentialCategory`
(part_001:3445-3452). -/
def essentialKeywords : List String :=
  ["necessary", "essential", "required", "functional", "strictly necessary",
   "security", "authentication", "basic", "core", "fundamental",
   "notwendig", "erforderlich", "wesentlich",
   "nécessaire", "essentiel", "requis",
   "necesario", "esencial", "requerido",
   "necessario", "essenziale", "richiesto"]

/-- Non-essential-category keyword list of `isNonEssentialCategory`
(part_001:3460-3468). -/
def nonEssentialKeywords : List String :=
  ["marketing", "advertising", "analytics", "tracking", "social",
   "performance", "measurement", "targeting", "personalization",
   "third party", "social media", "youtube", "facebook", "google",
   "marketing", "werbung", "analytik",
   "marketing", "publicité", "analytique",
   "marketing", "publicidad", "analítica",
   "marketing", "pubblicità", "analitica"]

/-- Does the (lowercased) text match the essential keyword set? This is
the first test inside `isNonEssentialCategory`. -/
def matchesEssential (text : String) : Bool :=
  let lowerText := jsToLower text
  essentialKeywords.any (fun keyword => jsIncludes lowerText keyword)

/-- Embeds `AntiEvasionCookieKiller.isNonEssentialCategory`
(part_001:3441-3472): essential keywords win; otherwise the label is
disabled exactly when a non-essential keyword occurs. -/
def isNonEssentialCategory (text : String) : Bool :=
  let lowerText := jsToLower text
  if matchesEssential text then false
  else nonEssentialKeywords.any (fun keyword => jsIncludes lowerText keyword)

/-- A toggle switch (or checkbox) in a preference interface: its checked
state and the label text recovered for it. -/
structure ToggleEl where
  checked : Bool
  labelText : String
  deriving DecidableEq, Repr

/-- Embeds `AntiEvasionCookieKiller.handleCookieToggles` (part_001:3236-3273):
the toggles it clicks (disables), in order — exactly the checked ones
whose label classifies as non-essential. -/
def handleCookieToggles (toggles : List ToggleEl) : List ToggleEl :=
  toggles.filter (fun toggle => toggle.checked && isNonEssentialCategory toggle.labelText)

/-- Embeds `AntiEvasionCookieKiller.handleCookieCheckboxes` (part_001:3280-3313):
the checkboxes it unchecks — same guard as the toggle handler. -/
def handleCookieCheckboxes (checkboxes : List ToggleEl) : List ToggleEl :=
  checkboxes.filter (fun checkbox => checkbox.checked && isNonEssentialCategory checkbox.labelText)

/-- An `<option>` of a preference dropdown. -/
structure DropdownOption where
  text : String
  value : String
  deriving DecidableEq, Repr

/-- A preference dropdown: the category label associated with it on the
page (never read by the handler) and its options. -/
structure DropdownEl where
  labelText : String
  options : List DropdownOption
  deriving DecidableEq, Repr

/-- The reject-option filter of `handleCookieDropdowns`
(part_001:3334-3339). -/
def isRejectOption (option : DropdownOption) : Bool :=
  let text := jsToLower option.text
  jsIncludes text "reject" || jsIncludes text "deny" ||
    jsIncludes text "off" || jsIncludes text "disable" ||
    jsIncludes text "no" || option.value = "0" || option.value = "false"

/-- Embeds `AntiEvasionCookieKiller.handleCookieDropdowns` (part_001:3320-3353):
for every matched dropdown with at least one reject-like option, the
dropdown's value is set to the first such option (a change event is
dispatched). Returns the list of (dropdown, selected option) mutations;
no category-label classification occurs. -/
def handleCookieDropdowns (dropdowns : List DropdownEl) :
    List (DropdownEl × DropdownOption) :=
  dropdowns.filterMap (fun dropdown =>
    match dropdown.options.filter isRejectOption with
    | [] => none
    | rejectOption :: _ => some (dropdown, rejectOption))

/-- A category container in a preference interface: its text content and
whether it contains a reject/deny/off button. -/
structure CategoryContainer where
  text : String
  hasRejectButton : Bool
  deriving DecidableEq, Repr

/-- Embeds `AntiEvasionCookieKiller.handleCategoryButtons` (part_001:3360-3391):
the containers whose reject button is clicked — the non-essential ones
that have such a button. -/
def handleCategoryButtons (containers : List CategoryContainer) :
    List CategoryContainer :=
  containers.filter (fun container =>
    isNonEssentialCategory (jsToLower container.text) && container.hasRejectButton)

/-! ## Anti-evasion content script: processed-set guard -/

/-- A banner element handed to `processBanner`: an identity for the DOM
node plus whether it passes the element-validity check
(`banner && typeof banner === 'object' && banner.nodeType`). -/
structure BannerEl where
  id : Nat
  valid : Bool
  deriving DecidableEq, Repr

/-- The result object of the content script's `processBanner`. -/
structure BannerResult where
  success : Bool
  method : String
  confidence : ℚ
  deriving DecidableEq, Repr

/-- The early return for an invalid element (part_001:976-984). -/
def invalidElementResult : BannerResult :=
  ⟨false, "invalid-element", 0⟩

/-- The early return for a banner already in the processed set
(part_001:987-994). -/
def alreadyProcessedResult : BannerResult :=
  ⟨false, "already-processed", 0⟩

/-- Embeds `AntiEvasionCookieKiller.processBanner` entry (part_001:974-997),
with the actual processing body abstracted as `doWork`, which yields a
result together with the list of click/mutation side effects it issues.
Returns the result, the updated processed set (the banner is added
before any work), and the mutations performed by this invocation. -/
def aekProcessBanner (doWork : BannerEl → BannerResult × List Nat)
    (processedBanners : List Nat) (banner : BannerEl) :
    BannerResult × List Nat × List Nat :=
  if !banner.valid then (invalidElementResult, processedBanners, [])
  else if banner.id ∈ processedBanners then
    (alreadyProcessedResult, processedBanners, [])
  else
    let worked := doWork banner
    (worked.1, banner.id :: processedBanners, worked.2)

/-! ## AI engine: Q-learning reward and value update (part_002) -/

/-- The state signature extracted for the learning agent. -/
structure QState where
  framework : String
  position : String
  buttonCount : Nat
  language : String
  deriving DecidableEq, Repr

/-- Embeds `QLearningAgent.stateToString` (part_002:564-567). -/
def stateToString (state : QState) : String :=
  state.framework ++ "_" ++ state.position ++ "_" ++ toString state.buttonCount
    ++ "_" ++ state.language

/-- An experience record as assembled by `AIEngine.learnFromOutcome` and
consumed by `recordExperience`/`calculateReward`. Optional fields model
JS fields that may be absent (and are read with `|| 0` / truthiness
checks). -/
structure Experience where
  state : Option QState
  action : Option String
  success : Bool
  confidence : Option ℚ
  method : String
  processingTime : Option ℚ
  deriving DecidableEq, Repr

/-- Embeds `QLearningAgent.calculateReward` (part_002:646-671). -/
def calculateReward (experience : Experience) : ℚ :=
  let reward : ℚ := 0
  let reward := if experience.success then reward + 10 else reward - 5
  let reward := reward + (jsOrQ experience.confidence 0) * 3
  let reward := if experience.method = "rule-based" && experience.success
    then reward + 2 else reward
  let processingTime := jsOrQ experience.processingTime 0
  let reward := if processingTime > 1000 then reward - 1 else reward
  reward

/-- The Q-table, as an association list from `<stateKey>_<action>` keys
to values; `setQValue` binds at the front and `getQValue` reads the most
recent binding, matching JS `Map.set`/`Map.get` observably. -/
def QTable := List (String × ℚ)

/-- Embeds `QLearningAgent.getQValue` (part_002:616-619): `qTable.get(key) || 0`. -/
def getQValue (qTable : QTable) (state action : String) : ℚ :=
  jsOrQ (qTable.lookup (state ++ "_" ++ action)) 0

/-- Embeds `QLearningAgent.setQValue` (part_002:621-624). -/
def setQValue (qTable : QTable) (state action : String) (value : ℚ) : QTable :=
  (state ++ "_" ++ action, value) :: qTable

/-- The fixed learning rate `config.learningRate` (part_002:531). -/
def learningRate : ℚ := 1/10

/-- The Q-table update of `QLearningAgent.recordExperience`
(part_002:626-644): when the experience carries a state and an action,
`newQ = currentQ + learningRate * (reward - currentQ)` is stored under
the (state signature, action) key; otherwise the table is unchanged.
(The raw experience log and its periodic persistence have no effect on
the table.) -/
def recordExperience (qTable : QTable) (experience : Experience) : QTable :=
  match experience.state, experience.action with
  | some state, some action =>
    let stateKey := stateToString state
    let reward := calculateReward experience
    let currentQ := getQValue qTable stateKey action
    let newQ := currentQ + learningRate * (reward - currentQ)
    setQValue qTable stateKey action newQ
  | _, _ => qTable

/-! ## Theorems -/

/-- C2 (counterexample): the claim "the learning path's answer is chosen
if and only if its confidence exceeds the rule path's confidence by more
than 0.2" fails: with rule confidence 0 and learning confidence 1/4, the
learning confidence exceeds the rule confidence by 1/4 > 0.2, yet
`executeParallelEvaluation` picks the rule path, because
`chooseBestResult` reads both confidences with `|| 0.5` and a zero
confidence is falsy. -/
theorem c2_arbitration_counterexample :
    (1/4 : ℚ) - 0 > 2/10 ∧
    executeParallelEvaluation (.ok (⟨false, some 0⟩, ⟨true, some (1/4)⟩)) =
      .ruleWon := by
  refine ⟨by norm_num, ?_⟩
  simp +decide only [executeParallelEvaluation, chooseBestResult, jsOrQ]
  norm_num

/-- C2 (amended): in parallel evaluation, when both paths complete, the
learning path's answer is chosen iff its effective confidence — the
result's confidence field with a missing or zero value replaced by the
default 0.5 — exceeds the rule path's effective confidence by more than
the fixed margin 0.2; otherwise the rule path's answer is chosen, and
the choice is a deterministic function of the two results. -/
theorem c2_arbitration_amended (ruleResult aiResult : PathResult) :
    (executeParallelEvaluation (.ok (ruleResult, aiResult)) = .aiWon ↔
      jsOrQ aiResult.confidence (1/2) - jsOrQ ruleResult.confidence (1/2) > 2/10) ∧
    (executeParallelEvaluation (.ok (ruleResult, aiResult)) = .ruleWon ↔
      ¬(jsOrQ aiResult.confidence (1/2) - jsOrQ ruleResult.confidence (1/2) > 2/10)) := by
  unfold executeParallelEvaluation chooseBestResult
  dsimp only
  split_ifs with h
  · exact ⟨iff_of_true rfl h, iff_of_false (by simp) (not_not_intro h)⟩
  · exact ⟨iff_of_false (by simp) h, iff_of_true rfl h⟩

/-- C3 (counterexample): the claim "low complexity yields a rule-only
strategy (no learning fallback)" fails: with the AI engine available and
initialized, a complexity score below the low threshold (here 1/10)
yields the `rule-based-primary` method with an AI fallback, not
`rule-based-only`. -/
theorem c3_strategy_counterexample :
    getRecommendation (1/10) = .ruleBased ∧
    decideStrategy (some ⟨true⟩) (getRecommendation (1/10)) =
      ⟨.ruleBasedPrimary, 9/10, some .ai, none⟩ ∧
    (decideStrategy (some ⟨true⟩) (getRecommendation (1/10))).method ≠
      .ruleBasedOnly := by
  have h : getRecommendation (1/10) = .ruleBased := by
    simp only [getRecommendation]
    norm_num
  refine ⟨h, ?_, ?_⟩ <;> rw [h] <;> simp [decideStrategy]

/-- C3 (amended): a missing or uninitialized learning engine forces
rule-only regardless of complexity; otherwise low complexity (score
below 0.3) yields rule-primary with a learning fallback, medium
complexity yields parallel evaluation with the default 2000ms timeout,
and high complexity (score above 0.7) yields learning-primary with a
rule-based fallback. -/
theorem c3_strategy_selection (score : ℚ) :
    (∀ rec, decideStrategy none rec = ⟨.ruleBasedOnly, 8/10, none, none⟩) ∧
    (∀ rec, decideStrategy (some ⟨false⟩) rec = ⟨.ruleBasedOnly, 8/10, none, none⟩) ∧
    (score < 3/10 →
      decideStrategy (some ⟨true⟩) (getRecommendation score) =
        ⟨.ruleBasedPrimary, 9/10, some .ai, none⟩) ∧
    (3/10 ≤ score → score ≤ 7/10 →
      decideStrategy (some ⟨true⟩) (getRecommendation score) =
        ⟨.parallelEvaluation, 85/100, none, some 2000⟩) ∧
    (7/10 < score →
      decideStrategy (some ⟨true⟩) (getRecommendation score) =
        ⟨.aiPrimary, 8/10, some .ruleBased, none⟩) := by
  refine ⟨fun rec => rfl, fun rec => rfl, fun hlow => ?_, fun hge hle => ?_, fun hhigh => ?_⟩
  · rw [show getRecommendation score = .ruleBased by simp [getRecommendation, hlow]]
    rfl
  · rw [show getRecommendation score = .hybrid by
      simp [getRecommendation, not_lt.mpr hge, not_lt.mpr hle]]
    rfl
  · rw [show getRecommendation score = .aiPrimary by
      simp [getRecommendation, not_lt.mpr (le_of_lt (by linarith : (3:ℚ)/10 < score)), hhigh]]
    rfl

/-- Witness for `c3_strategy_selection` at the concrete score 1/2
(medium complexity). -/
theorem c3_strategy_selection_witness :
    decideStrategy (some ⟨true⟩) (getRecommendation (1/2)) =
      ⟨.parallelEvaluation, 85/100, none, some 2000⟩ :=
  (c3_strategy_selection (1/2)).2.2.2.1 (by norm_num) (by norm_num)

/-- C4 (counterexample): the claim "processBanner never lets an
exception escape and whenever an error occurs it returns a result with
success: false" fails: when the try block throws, the catch branch
returns the emergency rule-based fallback's result as is — here a
result with `success: true` — and when the fallback itself throws, the
exception escapes. -/
theorem c4_error_counterexample :
    hybridProcessBanner (.error "analysis failed") (fun _ => .error "not reached")
        (.ok ()) none (.ok ⟨true, some 1⟩) = .ok ⟨true, some 1⟩ ∧
    (⟨true, some 1⟩ : PathResult).success = true ∧
    hybridProcessBanner (.error "analysis failed") (fun _ => .error "not reached")
        (.ok ()) none (.error "fallback threw") = .error "fallback threw" :=
  ⟨rfl, rfl, rfl⟩

/-- C4 (amended): any error thrown during the coordinator's analysis,
strategy execution or outcome recording is caught, and `processBanner`
then returns the emergency rule-based fallback's result unchanged
(which may report success); an exception escapes only if that fallback
itself throws — whenever the fallback returns normally, `processBanner`
returns normally. -/
theorem c4_error_fallback :
    (∀ (msg : String) (exec : StrategyDecision → Except String PathResult)
        (record : Except String Unit) (aiEngine : Option AIStatus)
        (fb : Except String PathResult),
      hybridProcessBanner (.error msg) exec record aiEngine fb = fb) ∧
    (∀ (analyze : Except String ℚ) (exec : StrategyDecision → Except String PathResult)
        (record : Except String Unit) (aiEngine : Option AIStatus) (r : PathResult),
      ∃ r', hybridProcessBanner analyze exec record aiEngine (.ok r) = .ok r') := by
  constructor
  · intro msg exec record aiEngine fb
    rfl
  · intro analyze exec record aiEngine r
    unfold hybridProcessBanner
    cases analyze with
    | error e => exact ⟨r, rfl⟩
    | ok score =>
      cases hx : exec (decideStrategy aiEngine (getRecommendation score)) with
      | error e => simp only [bind, Except.bind, hx]; exact ⟨r, rfl⟩
      | ok result =>
        cases record with
        | error e => simp only [bind, Except.bind, hx]; exact ⟨r, rfl⟩
        | ok u => simp only [bind, Except.bind, hx]; exact ⟨result, rfl⟩

/-- C8: divergence at the failing input. The historical-difficulty
factor is 1 − 0.7·successRate − min(avgAttempts/10, 0.3): with two
recent all-failure outcomes, raising the recorded attempts-to-success
from 1 to 5 lowers the returned difficulty from 0.9 to 0.7, while the
claim (and the code's own comment "Higher difficulty if low success
rate or many attempts needed") requires more attempts-to-success to
yield higher difficulty. -/
theorem c8_attempts_lower_difficulty :
    getHistoricalDifficulty 0 (some [⟨0, false, 1⟩, ⟨0, false, 1⟩]) = 9/10 ∧
    getHistoricalDifficulty 0 (some [⟨0, false, 5⟩, ⟨0, false, 5⟩]) = 7/10 ∧
    (7/10 : ℚ) < 9/10 := by
  refine ⟨?_, ?_, by norm_num⟩ <;>
    (simp +decide only [getHistoricalDifficulty]; norm_num)

/-- C5: for every text input and button element the reject score lies in
[0,1], and `findAndClickRejectButton` issues a click on a button only
when its computed score is strictly greater than 0.7. -/
theorem c5_score_bounds_click_threshold :
    (∀ (text : String) (button : ButtonEl),
      0 ≤ calculateRejectScore text button ∧ calculateRejectScore text button ≤ 1) ∧
    (∀ (clickOk : ButtonEl → Bool) (buttons : List ButtonEl) (button : ButtonEl),
      button ∈ (findAndClickRejectButton clickOk buttons).1 →
      calculateRejectScore (buttonFullText button) button > 7/10) := by
  constructor
  · intro text button
    unfold calculateRejectScore
    dsimp only
    exact ⟨le_max_left _ _, max_le (by norm_num) (min_le_left _ _)⟩
  · intro clickOk buttons
    induction buttons with
    | nil =>
      intro b hb
      simp [findAndClickRejectButton] at hb
    | cons hd tl ih =>
      intro b hb
      rw [findAndClickRejectButton] at hb
      dsimp only at hb
      by_cases hs : calculateRejectScore (buttonFullText hd) hd > 7/10
      · rw [if_pos hs] at hb
        by_cases hc : clickOk hd = true
        · rw [if_pos hc] at hb
          rcases List.mem_singleton.mp hb with rfl
          exact hs
        · rw [if_neg hc] at hb
          rcases List.mem_cons.mp hb with rfl | hmem
          · exact hs
          · exact ih b hmem
      · rw [if_neg hs] at hb
        exact ih b hb

/-- Witness for `c5_score_bounds_click_threshold`: the button
"Reject All" is clicked by the loop, and its score 9/10 is above the
0.7 threshold. -/
theorem c5_click_threshold_witness :
    calculateRejectScore
        (buttonFullText ⟨"Reject All", "", "", "", false⟩)
        ⟨"Reject All", "", "", "", false⟩ > 7/10 := by
  have hscore : calculateRejectScore
      (buttonFullText ⟨"Reject All", "", "", "", false⟩)
      ⟨"Reject All", "", "", "", false⟩ = 9/10 := by
    simp +decide only [calculateRejectScore, buttonFullText]
    norm_num
  have hmem : (⟨"Reject All", "", "", "", false⟩ : ButtonEl) ∈
      (findAndClickRejectButton (fun _ => true)
        [⟨"Reject All", "", "", "", false⟩]).1 := by
    rw [findAndClickRejectButton]
    dsimp only
    rw [hscore, if_pos (by norm_num : (9:ℚ)/10 > 7/10)]
    simp
  exact c5_score_bounds_click_threshold.2 (fun _ => true) _ _ hmem

/-- Helper for C9: the polling loop performs at most `fuel + 1` further
checks, so the resolved attempt counter is bounded. -/
theorem checkForPreferences_snd_le (env : Nat → Bool) :
    ∀ (fuel attempts : Nat),
      (checkForPreferences env attempts fuel).2 ≤ attempts + fuel + 1 := by
  intro fuel
  induction fuel with
  | zero =>
    intro a
    dsimp [checkForPreferences]
    omega
  | succ n ih =>
    intro a
    rw [checkForPreferences]
    by_cases h : env (a + 1) = true
    · rw [if_pos h]
      dsimp only
      omega
    · rw [if_neg h]
      have := ih (a + 1)
      omega

/-- Helper for C9: the loop resolves `true` exactly when some polled
attempt in its window finds a preference-UI indicator. -/
theorem checkForPreferences_fst_iff (env : Nat → Bool) :
    ∀ (fuel attempts : Nat),
      ((checkForPreferences env attempts fuel).1 = true ↔
        ∃ k, attempts + 1 ≤ k ∧ k ≤ attempts + fuel + 1 ∧ env k = true) := by
  intro fuel
  induction fuel with
  | zero =>
    intro a
    dsimp [checkForPreferences]
    constructor
    · intro h
      exact ⟨a + 1, le_refl _, by omega, h⟩
    · rintro ⟨k, hk1, hk2, hk⟩
      have hka : k = a + 1 := by omega
      rw [← hka]
      exact hk
  | succ n ih =>
    intro a
    rw [checkForPreferences]
    by_cases h : env (a + 1) = true
    · rw [if_pos h]
      dsimp only
      constructor
      · intro _
        exact ⟨a + 1, le_refl _, by omega, h⟩
      · intro _
        exact h
    · rw [if_neg h]
      rw [ih (a + 1)]
      constructor
      · rintro ⟨k, hk1, hk2, hk⟩
        exact ⟨k, by omega, by omega, hk⟩
      · rintro ⟨k, hk1, hk2, hk⟩
        rcases Nat.eq_or_lt_of_le hk1 with heq | hlt
        · have : env (a + 1) = true := by rw [heq]; exact hk
          exact absurd this h
        · exact ⟨k, by omega, by omega, hk⟩

/-- C9: `waitForPreferencesPage` always resolves within its configured
bound — the poll counter at resolution is at most `maxAttempts = 20`
(20 polls ≈ 500ms apart ≈ a 10-second ceiling) even if a preference UI
never appears — and it resolves `true` iff one of the (at most 20)
polls finds a preference-UI indicator; otherwise it resolves `false`. -/
theorem c9_wait_for_preferences_terminates (env : Nat → Bool) :
    (waitForPreferencesPage env).2 ≤ 20 ∧
    ((waitForPreferencesPage env).1 = true ↔
      ∃ k, 1 ≤ k ∧ k ≤ 20 ∧ env k = true) := by
  unfold waitForPreferencesPage
  constructor
  · have := checkForPreferences_snd_le env 19 0
    omega
  · have := checkForPreferences_fst_iff env 19 0
    simpa using this

/-- ASCII lowercasing is idempotent. -/
theorem charToLower_idem (c : Char) : c.toLower.toLower = c.toLower := by
  unfold Char.toLower
  dsimp only
  by_cases h : c.toNat ≥ 65 ∧ c.toNat ≤ 90
  · rw [if_pos h]
    have hv : (c.toNat + 32).isValidChar := Or.inl (by omega)
    have ht : (Char.ofNat (c.toNat + 32)).toNat = c.toNat + 32 := by
      unfold Char.ofNat
      rw [dif_pos hv]
      rfl
    rw [ht, if_neg (by omega)]
  · rw [if_neg h, if_neg h]

/-- Lowercasing via `jsToLower` is idempotent. -/
theorem jsToLower_idem (s : String) : jsToLower (jsToLower s) = jsToLower s := by
  unfold jsToLower
  refine congrArg String.mk ?_
  show (s.data.map Char.toLower).map Char.toLower = s.data.map Char.toLower
  rw [List.map_map]
  exact List.map_congr_left (fun c _ => charToLower_idem c)

/-- Lowercasing before the essential check does not change it. -/
theorem matchesEssential_jsToLower (text : String) :
    matchesEssential (jsToLower text) = matchesEssential text := by
  unfold matchesEssential
  rw [jsToLower_idem]

/-- An essential-matching label is never classified as non-essential. -/
theorem isNonEssentialCategory_eq_false {text : String}
    (h : matchesEssential text = true) :
    isNonEssentialCategory text = false := by
  unfold isNonEssentialCategory
  dsimp only
  rw [if_pos h]

/-- C1 (counterexample): the claim "for every essential-matching
category label, CategoryConfiguration never issues a disable mutation
against it" fails in the dropdown step: `handleCookieDropdowns` never
consults the category label, so a dropdown labelled "Strictly Necessary
Cookies" (which matches the essential keyword set) still has its
reject-like option selected. -/
theorem c1_essential_dropdown_counterexample :
    matchesEssential "Strictly Necessary Cookies" = true ∧
    handleCookieDropdowns [⟨"Strictly Necessary Cookies", [⟨"Disable", "off"⟩]⟩] =
      [(⟨"Strictly Necessary Cookies", [⟨"Disable", "off"⟩]⟩, ⟨"Disable", "off"⟩)] := by
  constructor
  · decide
  · decide

/-- C1 (amended): the toggle, checkbox and category-button steps never
issue a disable mutation against a label matching the essential keyword
set (any supported language); the dropdown step is excluded because it
selects a reject-like option in every matched dropdown without
consulting the category label. -/
theorem c1_essential_never_disabled :
    (∀ (toggles : List ToggleEl) (t : ToggleEl),
      matchesEssential t.labelText = true → t ∉ handleCookieToggles toggles) ∧
    (∀ (checkboxes : List ToggleEl) (c : ToggleEl),
      matchesEssential c.labelText = true → c ∉ handleCookieCheckboxes checkboxes) ∧
    (∀ (containers : List CategoryContainer) (c : CategoryContainer),
      matchesEssential c.text = true → c ∉ handleCategoryButtons containers) := by
  refine ⟨fun toggles t ht hmem => ?_, fun checkboxes c hc hmem => ?_,
    fun containers c hc hmem => ?_⟩
  · rw [handleCookieToggles, List.mem_filter] at hmem
    rw [isNonEssentialCategory_eq_false ht] at hmem
    simp at hmem
  · rw [handleCookieCheckboxes, List.mem_filter] at hmem
    rw [isNonEssentialCategory_eq_false hc] at hmem
    simp at hmem
  · rw [handleCategoryButtons, List.mem_filter] at hmem
    rw [isNonEssentialCategory_eq_false (by rw [matchesEssential_jsToLower]; exact hc)]
      at hmem
    simp at hmem

/-- Witness for `c1_essential_never_disabled`: a checked toggle labelled
"Strictly Necessary" is not among the toggles the handler disables. -/
theorem c1_essential_never_disabled_witness :
    (⟨true, "Strictly Necessary"⟩ : ToggleEl) ∉
      handleCookieToggles [⟨true, "Strictly Necessary"⟩, ⟨true, "Marketing"⟩] :=
  c1_essential_never_disabled.1 _ _ (by decide)

/-- C10: the processed-set guard makes banner processing idempotent.
For any valid banner: a call on a set already containing it returns the
`already-processed` result immediately, with the set unchanged and no
mutations issued; a first call always adds the banner to the set; hence
a second invocation right after a first one performs no click or
mutation. -/
theorem c10_processed_set_idempotent
    (doWork : BannerEl → BannerResult × List Nat)
    (processed : List Nat) (banner : BannerEl) (hv : banner.valid = true) :
    (∀ S : List Nat, banner.id ∈ S →
      aekProcessBanner doWork S banner = (alreadyProcessedResult, S, [])) ∧
    banner.id ∈ (aekProcessBanner doWork processed banner).2.1 ∧
    aekProcessBanner doWork (aekProcessBanner doWork processed banner).2.1 banner =
      (alreadyProcessedResult, (aekProcessBanner doWork processed banner).2.1, []) := by
  have hguard : ∀ S : List Nat, banner.id ∈ S →
      aekProcessBanner doWork S banner = (alreadyProcessedResult, S, []) := by
    intro S hS
    unfold aekProcessBanner
    rw [hv]
    simp [hS]
  have hmem : banner.id ∈ (aekProcessBanner doWork processed banner).2.1 := by
    unfold aekProcessBanner
    rw [hv]
    dsimp only
    by_cases hp : banner.id ∈ processed
    · rw [if_pos hp]
      exact hp
    · rw [if_neg hp]
      exact List.mem_cons_self _ _
  exact ⟨hguard, hmem, hguard _ hmem⟩

/-- Witness for `c10_processed_set_idempotent`: banner 5 is already in
the processed set, so the call returns `already-processed`, leaves the
set unchanged and issues no mutation. -/
theorem c10_processed_set_idempotent_witness :
    aekProcessBanner (fun _ => (⟨true, "button-click", 1⟩, [7])) [5] ⟨5, true⟩ =
      (alreadyProcessedResult, [5], []) :=
  (c10_processed_set_idempotent (fun _ => (⟨true, "button-click", 1⟩, [7]))
    [] ⟨5, true⟩ rfl).1 [5] (by decide)

/-- C6 (counterexample): the claim "the reward lies within [−5, +13]"
fails on both ends: a successful rule-based outcome with confidence 1
and fast processing earns 10 + 3 + 2 = 15 > 13, and a failed outcome
with confidence 0 and processing above 1s earns −5 − 1 = −6 < −5. -/
theorem c6_reward_counterexample :
    calculateReward ⟨none, none, true, some 1, "rule-based", some 500⟩ = 15 ∧
    ¬((15 : ℚ) ≤ 13) ∧
    calculateReward ⟨none, none, false, some 0, "ai", some 1500⟩ = -6 ∧
    ¬((-5 : ℚ) ≤ -6) := by
  refine ⟨?_, by norm_num, ?_, by norm_num⟩ <;>
    (simp +decide only [calculateReward, jsOrQ]; norm_num)

/-- C6 (amended): for every recorded experience whose confidence field,
when present, lies in [0,1], the computed reward lies within [−6, +15]
(the extremes −6 = −5 − 1 and +15 = 10 + 3 + 2 are attained). -/
theorem c6_reward_bounds (e : Experience)
    (h : ∀ q : ℚ, e.confidence = some q → 0 ≤ q ∧ q ≤ 1) :
    -6 ≤ calculateReward e ∧ calculateReward e ≤ 15 := by
  have hc : 0 ≤ jsOrQ e.confidence 0 ∧ jsOrQ e.confidence 0 ≤ 1 := by
    unfold jsOrQ
    cases hec : e.confidence with
    | none => norm_num
    | some q =>
      have hq := h q hec
      dsimp only
      split_ifs with h0
      · norm_num
      · exact hq
  obtain ⟨hc1, hc2⟩ := hc
  unfold calculateReward
  dsimp only
  split_ifs <;> constructor <;> linarith

/-- Witness for `c6_reward_bounds` at a concrete experience. -/
theorem c6_reward_bounds_witness :
    -6 ≤ calculateReward ⟨none, none, true, some 1, "rule-based", some 500⟩ ∧
    calculateReward ⟨none, none, true, some 1, "rule-based", some 500⟩ ≤ 15 :=
  c6_reward_bounds _ (fun q hq => by
    simp only [Option.some.injEq] at hq
    rw [← hq]
    norm_num)

/-- Storing via `setQValue` yields the value the subsequent `getQValue` reads. -/
theorem getQValue_setQValue (qTable : QTable) (state action : String) (value : ℚ) :
    getQValue (setQValue qTable state action value) state action = value := by
  unfold getQValue setQValue
  rw [List.lookup_cons_self]
  unfold jsOrQ
  dsimp only
  split_ifs with h0
  · exact h0.symm
  · rfl

/-- C7: every experience carrying a state and an action updates the
stored value for its (state signature, action) pair by exactly
`Q ← Q + α·(reward − Q)` with `α = learningRate = 0.1`, where the
reward is +10 on success / −5 on failure, plus confidence×3, plus 2 for
a successful rule-based outcome, minus 1 when processing time exceeded
1000ms. -/
theorem c7_q_value_update (qTable : QTable) (e : Experience) (s : QState) (a : String)
    (hs : e.state = some s) (ha : e.action = some a) :
    getQValue (recordExperience qTable e) (stateToString s) a =
      getQValue qTable (stateToString s) a +
        learningRate * (calculateReward e - getQValue qTable (stateToString s) a) ∧
    learningRate = 1/10 ∧
    calculateReward e =
      (if e.success then (10:ℚ) else -5) + (jsOrQ e.confidence 0) * 3 +
        (if e.method = "rule-based" && e.success then (2:ℚ) else 0) +
        (if jsOrQ e.processingTime 0 > 1000 then (-1:ℚ) else 0) := by
  refine ⟨?_, rfl, ?_⟩
  · unfold recordExperience
    rw [hs, ha]
    dsimp only
    exact getQValue_setQValue ..
  · unfold calculateReward
    dsimp only
    split_ifs <;> ring

/-- Witness for `c7_q_value_update`: starting from the empty table, the
concrete experience below stores exactly `0 + 0.1·(reward − 0)`. -/
theorem c7_q_value_update_witness :
    getQValue
        (recordExperience []
          ⟨some ⟨"onetrust", "top", 3, "en"⟩, some "hybrid_approach",
            true, some 1, "rule-based", some 500⟩)
        (stateToString ⟨"onetrust", "top", 3, "en"⟩) "hybrid_approach" =
      getQValue [] (stateToString ⟨"onetrust", "top", 3, "en"⟩) "hybrid_approach" +
        learningRate *
          (calculateReward
              ⟨some ⟨"onetrust", "top", 3, "en"⟩, some "hybrid_approach",
                true, some 1, "rule-based", some 500⟩ -
            getQValue [] (stateToString ⟨"onetrust", "top", 3, "en"⟩) "hybrid_approach") :=
  (c7_q_value_update [] _ _ _ rfl rfl).1

/-- Witness for `c2_arbitration_amended`: with rule confidence 3/10 and
learning confidence 6/10 the margin is exceeded and the learning path
wins. -/
theorem c2_arbitration_amended_witness :
    executeParallelEvaluation (.ok (⟨true, some (3/10)⟩, ⟨true, some (6/10)⟩)) =
      .aiWon :=
  (c2_arbitration_amended ⟨true, some (3/10)⟩ ⟨true, some (6/10)⟩).1.mpr
    (by norm_num [jsOrQ])

/-- Witness for `c4_error_fallback`: a thrown analysis step hands back
the fallback's result. -/
theorem c4_error_fallback_witness :
    hybridProcessBanner (.error "analysis failed") (fun _ => .error "not reached")
        (.ok ()) none (.ok ⟨false, none⟩) = .ok ⟨false, none⟩ :=
  c4_error_fallback.1 "analysis failed" (fun _ => .error "not reached")
    (.ok ()) none (.ok ⟨false, none⟩)

/-- Witness for `c9_wait_for_preferences_terminates`: with an indicator
appearing at the third poll, the wait resolves `true`; its poll count is
within the bound. -/
theorem c9_wait_for_preferences_terminates_witness :
    (waitForPreferencesPage (fun k => k == 3)).2 ≤ 20 ∧
    (waitForPreferencesPage (fun k => k == 3)).1 = true :=
  ⟨(c9_wait_for_preferences_terminates (fun k => k == 3)).1,
    (c9_wait_for_preferences_terminates (fun k => k == 3)).2.mpr
      ⟨3, by norm_num, by norm_num, by decide⟩⟩

end CookieMarshal
